import Mathlib

/-!
Verification development for the event-bus / connection-state-machine core of
the `starter-rust-webuireact-rspack` repository.

The embedding below translates the relevant Rust code
(`src/event_bus.rs`, `src/websocket_manager.rs`) into executable Lean
definitions:

* stateful methods become pure state-transition functions that also return
  the list of events the method emits (the Rust code emits through
  fire-and-forget `tokio::spawn` tasks; the returned list records the
  emissions scheduled by the call, in program order);
* wall-clock timestamps (`chrono::Utc::now()`, `Instant::now()`) become
  explicit parameters;
* UUIDs (`Uuid::new_v4()`) become explicit identifier parameters, with
  freshness stated as a hypothesis where a claim needs it;
* locks are erased (sequential atomic semantics of each method body),
  except where a lock acquisition is itself the behaviour under study:
  `handle_connection_failure` re-locks the metrics mutex it already holds,
  so a second, lock-aware embedding of it tracks that mutex explicitly;
* JSON-valued payload fields (`serde_json::Value`: the `event_type`
  variants' payloads and `metadata`) are not needed by any property
  considered here and are omitted from the `Event` record; the listener
  type is a type parameter `L` of the bus, instantiated with an
  outcome-returning function where a claim inspects listener behaviour;
* `f64` (`avg_ping_time`) is modelled as `Option Unit`: the source never
  assigns it a value, so only its `none`/`some` shape is observable.
-/

/-! ## Definitions: pattern matching (`EventBus::match_pattern`, src/event_bus.rs:254-276) -/

/-- Rust `str::split('.')` on the underlying character list: splitting the
empty string yields one empty segment, and every `'.'` starts a new segment. -/
def splitDot : List Char → List (List Char)
  | [] => [[]]
  | c :: rest =>
    let r := splitDot rest
    if c = '.' then [] :: r
    else
      match r with
      | [] => [[c]]
      | s :: ss => (c :: s) :: ss

/-- `pattern.split('.').collect::<Vec<&str>>()` as a Lean function on `String`. -/
def splitOnDot (s : String) : List String :=
  (splitDot s.data).map (fun cs => String.mk cs)

/-- The `for (i, part) in pattern_parts.iter().enumerate()` loop of
`match_pattern`: `some b` is an early `return b`, `none` means the loop ran
to completion.  Walking both lists in lockstep realises the index `i` into
`name_parts`; an exhausted name list is the `i >= name_parts.len()` check. -/
def walkSegments : List String → List String → Option Bool
  | [], _ => none
  | p :: ps, names =>
    if p = "*" ∨ p = "**" then some true
    else
      match names with
      | [] => some false
      | n :: ns => if p = n then walkSegments ps ns else some false

/-- `EventBus::match_pattern` (src/event_bus.rs:254-276). -/
def match_pattern (pattern event_name : String) : Bool :=
  if pattern = event_name ∨ pattern = "*" then true
  else
    let pattern_parts := splitOnDot pattern
    let name_parts := splitOnDot event_name
    if pattern_parts.length > name_parts.length then false
    else
      match walkSegments pattern_parts name_parts with
      | some b => b
      | none =>
        pattern_parts.length == name_parts.length
          || pattern_parts.getLast? == some "**"

/-! ## Definitions: the event bus (src/event_bus.rs) -/

/-- `EventPriority` (src/event_bus.rs:14-20). -/
inductive EventPriority
  | Low
  | Normal
  | High
  | Critical
deriving DecidableEq, Repr

/-- `Event` (src/event_bus.rs:56-68), without the JSON-valued
`event_type`/`metadata` fields (see the module comment). -/
structure Event where
  id : String
  name : String
  timestamp : Int
  source : String
  target : Option String := none
  priority : EventPriority := .Normal
  correlation_id : Option String := none
  reply_to : Option String := none
deriving DecidableEq, Repr

/-- `EventBus` (src/event_bus.rs:176-182): the `HashMap<String, Vec<(String,
Arc<dyn EventListener>)>>` of subscriptions is an association list (one entry
per pattern, in some fixed iteration order), the listener type is the
parameter `L`. -/
structure EventBus (L : Type) where
  subscriptions : List (String × List (String × L))
  event_history : List Event
  max_history_size : Nat

/-- `EventBus::new` (src/event_bus.rs:185-193): empty state,
`max_history_size = 1000`. -/
def EventBus.new (L : Type) : EventBus L :=
  { subscriptions := [], event_history := [], max_history_size := 1000 }

/-- The shared bounded-buffer step: push at the tail, evict the head once the
length exceeds the capacity.  This is both the history update of
`EventBus::emit` (`Vec::push` then `Vec::remove(0)`, src/event_bus.rs:217-223)
and the error-log update of `WebSocketManager::record_error`
(`VecDeque::push_back` then `VecDeque::pop_front`,
src/websocket_manager.rs:219-225). -/
def boundedPush {α : Type} (maxSize : Nat) (buf : List α) (x : α) : List α :=
  let b := buf ++ [x]
  if b.length > maxSize then b.tail else b

/-- `HashMap::entry(pattern).or_insert_with(Vec::new).push((id, listener))`
(src/event_bus.rs:198) over the association-list representation. -/
def addSub {L : Type} (subs : List (String × List (String × L)))
    (pattern id : String) (listener : L) : List (String × List (String × L)) :=
  match subs with
  | [] => [(pattern, [(id, listener)])]
  | (p, b) :: rest =>
    if p = pattern then (p, b ++ [(id, listener)]) :: rest
    else (p, b) :: addSub rest pattern id listener

/-- `EventBus::subscribe` (src/event_bus.rs:195-201); the freshly generated
UUID is the explicit `id` argument. -/
def EventBus.subscribe {L : Type} (bus : EventBus L) (pattern : String) (listener : L)
    (id : String) : EventBus L :=
  { bus with subscriptions := addSub bus.subscriptions pattern id listener }

/-- `subscriptions.iter().position(..)` followed by `remove(pos)`
(src/event_bus.rs:206-208): remove the first pair carrying `id` from one
bucket, `none` when the bucket has no such pair. -/
def removeFirst {L : Type} (bucket : List (String × L)) (id : String) :
    Option (List (String × L)) :=
  match bucket with
  | [] => none
  | (i, l) :: rest =>
    if i = id then some rest
    else
      match removeFirst rest id with
      | some rest' => some ((i, l) :: rest')
      | none => none

/-- The bucket scan of `EventBus::unsubscribe` (src/event_bus.rs:203-212):
the first bucket containing the id loses its first matching entry and the
scan returns `true`; otherwise `false` with everything unchanged. -/
def unsubGo {L : Type} (subs : List (String × List (String × L))) (id : String) :
    Bool × List (String × List (String × L)) :=
  match subs with
  | [] => (false, [])
  | (p, b) :: rest =>
    match removeFirst b id with
    | some b' => (true, (p, b') :: rest)
    | none =>
      let r := unsubGo rest id
      (r.1, (p, b) :: r.2)

/-- `EventBus::unsubscribe` (src/event_bus.rs:203-212). -/
def EventBus.unsubscribe {L : Type} (bus : EventBus L) (id : String) : Bool × EventBus L :=
  let r := unsubGo bus.subscriptions id
  (r.1, { bus with subscriptions := r.2 })

/-- `EventBus::get_matching_subscriptions` (src/event_bus.rs:241-252). -/
def EventBus.get_matching_subscriptions {L : Type} (bus : EventBus L) (event_name : String) :
    List (String × L) :=
  bus.subscriptions.foldl
    (fun acc pb => if match_pattern pb.1 event_name then acc ++ pb.2 else acc) []

/-- `EventBus::emit` (src/event_bus.rs:214-239).  The broadcast
`send` outcome is an input (`broadcast_send_result`) that the method
discards (`let _ = self.broadcast_tx.send(event.clone())`); the third
component of the result is the list of `(subscription id, listener)` pairs
the dispatch loop spawns a task for, in loop order.  The `Ok(())` return is
unconditional. -/
def EventBus.emit {L : Type} (bus : EventBus L) (event : Event)
    (broadcast_send_result : Except String Nat) :
    Except String Unit × EventBus L × List (String × L) :=
  let history := boundedPush bus.max_history_size bus.event_history event
  let _ := broadcast_send_result
  let dispatched := bus.get_matching_subscriptions event.name
  (Except.ok (), { bus with event_history := history }, dispatched)

/-- `EventBus::get_event_history` (src/event_bus.rs:282-288):
`Some(l)` takes the `l` most recent entries newest first
(`history.iter().rev().take(l)`), `None` clones the whole buffer in
insertion order. -/
def EventBus.get_event_history {L : Type} (bus : EventBus L) (limit : Option Nat) :
    List Event :=
  match limit with
  | some l => (bus.event_history.reverse).take l
  | none => bus.event_history

/-- A sequence of `emit` calls (each with a successfully delivered broadcast
send; `emit` ignores that outcome anyway). -/
def EventBus.emitAll {L : Type} (bus : EventBus L) (events : List Event) : EventBus L :=
  events.foldl (fun b e => (b.emit e (Except.ok 0)).2.1) bus

/-- Occurrences of a subscription id across all pattern buckets. -/
def countId {L : Type} (subs : List (String × List (String × L))) (id : String) : Nat :=
  (subs.map (fun pb => pb.2.countP (fun s => s.1 == id))).sum

/-- An event with a distinguishing id, used for concrete emit scenarios. -/
def natEvent (n : Nat) : Event :=
  { id := toString n, name := "history.probe", timestamp := 0, source := "bench" }

/-- A bus holding exactly two subscriptions on one shared pattern, the
configuration of the fan-out-isolation scenario. -/
def twoListenerBus (pat idA idB : String) (lA lB : Event → Except String Unit)
    (hist : List Event) (cap : Nat) : EventBus (Event → Except String Unit) :=
  { subscriptions := [(pat, [(idA, lA), (idB, lB)])], event_history := hist,
    max_history_size := cap }

/-! ## Definitions: the connection state machine (src/websocket_manager.rs) -/

/-- `WebSocketState` (src/websocket_manager.rs:12-18). -/
inductive WebSocketState
  | Disconnected
  | Connecting
  | Connected
  | Reconnecting
  | Failed
deriving DecidableEq, Repr

/-- `WebSocketMetrics` (src/websocket_manager.rs:22-36). -/
structure WebSocketMetrics where
  connection_attempts : Nat
  successful_connections : Nat
  failed_connections : Nat
  messages_sent : Nat
  messages_received : Nat
  bytes_sent : Nat
  bytes_received : Nat
  last_error : Option String
  last_error_time : Option Nat
  uptime_seconds : Nat
  avg_ping_time : Option Unit
  connection_duration : Option Nat
  reconnect_count : Nat
deriving DecidableEq, Repr

/-- The all-zero metrics record built both by `WebSocketManager::new`
(src/websocket_manager.rs:55-69) and by `reset_metrics`
(src/websocket_manager.rs:303-322). -/
def WebSocketMetrics.init : WebSocketMetrics :=
  { connection_attempts := 0, successful_connections := 0, failed_connections := 0,
    messages_sent := 0, messages_received := 0, bytes_sent := 0, bytes_received := 0,
    last_error := none, last_error_time := none, uptime_seconds := 0,
    avg_ping_time := none, connection_duration := none, reconnect_count := 0 }

/-- `WebSocketManager` (src/websocket_manager.rs:38-49), minus the opaque
`window` handle which no modelled method reads. -/
structure WebSocketManager where
  state : WebSocketState
  metrics : WebSocketMetrics
  reconnect_interval : Nat
  max_reconnect_attempts : Nat
  current_reconnect_attempt : Nat
  is_running : Bool
  connection_start_time : Option Nat
  error_log : List (Nat × String)
  max_error_log_size : Nat
deriving DecidableEq, Repr

/-- `WebSocketManager::new` (src/websocket_manager.rs:52-79). -/
def WebSocketManager.new : WebSocketManager :=
  { state := .Disconnected, metrics := .init, reconnect_interval := 5,
    max_reconnect_attempts := 10, current_reconnect_attempt := 0, is_running := false,
    connection_start_time := none, error_log := [], max_error_log_size := 50 }

/-- The bus events the manager emits: the `Custom` state-change event built
by `emit_state_change_event` (src/websocket_manager.rs:172-198), carrying
previous state, current state and timestamp, and the `websocket.error` event
built by `record_error` (src/websocket_manager.rs:227-253), carrying the
error text, timestamp and a metrics snapshot. -/
inductive WsEmitted
  | stateChange (event_name : String) (previous current : WebSocketState) (timestamp : Nat)
  | errorEvent (error : String) (timestamp : Nat) (snapshot : WebSocketMetrics)
deriving DecidableEq, Repr

/-- The event-name mapping of `emit_state_change_event`
(src/websocket_manager.rs:173-179). -/
def stateEventName : WebSocketState → String
  | .Connected => "websocket.connected"
  | .Disconnected => "websocket.disconnected"
  | .Connecting => "websocket.connecting"
  | .Reconnecting => "websocket.reconnecting"
  | .Failed => "websocket.failed"

/-- `WebSocketManager::set_state` (src/websocket_manager.rs:159-170): assign
and emit one state-change event only when the new state differs. -/
def WebSocketManager.set_state (m : WebSocketManager) (new_state : WebSocketState)
    (ts : Nat) : WebSocketManager × List WsEmitted :=
  if m.state ≠ new_state then
    ({ m with state := new_state },
     [WsEmitted.stateChange (stateEventName new_state) m.state new_state ts])
  else (m, [])

/-- `WebSocketManager::record_error` (src/websocket_manager.rs:212-256):
update `last_error`/`last_error_time`, append to the bounded error log
(capacity `max_error_log_size`), emit one error event with the metrics
snapshot. -/
def WebSocketManager.record_error (m : WebSocketManager) (error : String) (ts : Nat) :
    WebSocketManager × List WsEmitted :=
  let metrics := { m.metrics with last_error := some error, last_error_time := some ts }
  let log := boundedPush m.max_error_log_size m.error_log (ts, error)
  ({ m with metrics := metrics, error_log := log },
   [WsEmitted.errorEvent error ts metrics])

/-- `WebSocketManager::handle_connection_success`
(src/websocket_manager.rs:258-273). -/
def WebSocketManager.handle_connection_success (m : WebSocketManager) (now ts : Nat) :
    WebSocketManager × List WsEmitted :=
  let metrics := { m.metrics with
    connection_attempts := m.metrics.connection_attempts + 1,
    successful_connections := m.metrics.successful_connections + 1 }
  let m1 := { m with
    metrics := metrics,
    current_reconnect_attempt := 0,
    connection_start_time := some now }
  m1.set_state .Connected ts

/-- `WebSocketManager::handle_connection_failure`
(src/websocket_manager.rs:275-293) with locks erased, i.e. the INTENDED
sequential semantics of the body: bump the attempt/failure counters, record
the error, increment the reconnect attempt counter and `reconnect_count`,
then move to `Failed` when the incremented attempt counter has reached
`max_reconnect_attempts` and to `Reconnecting` otherwise.  The source does
not actually reach the steps after `record_error`: see
`handle_connection_failure_locked` below, which keeps the metrics mutex in
the model.  This lock-erased version is what a sequence of connection
outcomes observably does to the invariant counters, which are all updated
before the re-lock point. -/
def WebSocketManager.handle_connection_failure (m : WebSocketManager) (error : String)
    (ts : Nat) : WebSocketManager × List WsEmitted :=
  let metrics := { m.metrics with
    connection_attempts := m.metrics.connection_attempts + 1,
    failed_connections := m.metrics.failed_connections + 1 }
  let r := WebSocketManager.record_error { m with metrics := metrics } error ts
  let m2 := r.1
  let attempt := m2.current_reconnect_attempt + 1
  let m3 := { m2 with
    current_reconnect_attempt := attempt,
    metrics := { m2.metrics with reconnect_count := m2.metrics.reconnect_count + 1 } }
  let r2 :=
    if attempt ≥ m3.max_reconnect_attempts then m3.set_state .Failed ts
    else m3.set_state .Reconnecting ts
  (r2.1, r.2 ++ r2.2)

/-- `std::sync::Mutex::lock` as seen by the thread calling it: acquiring a
mutex the same thread already holds never returns (the mutex is not
re-entrant), modelled as `none`. -/
def mutexLock (alreadyHeld : Bool) : Option Unit :=
  if alreadyHeld then none else some ()

/-- `record_error` as called with an explicit record of whether the caller
already holds the metrics mutex that `record_error` acquires at
src/websocket_manager.rs:214: `none` when that acquisition never returns. -/
def WebSocketManager.record_error_in (m : WebSocketManager) (metricsHeld : Bool)
    (error : String) (ts : Nat) : Option (WebSocketManager × List WsEmitted) :=
  match mutexLock metricsHeld with
  | none => none
  | some _ => some (m.record_error error ts)

/-- Lock-aware embedding of `handle_connection_failure`
(src/websocket_manager.rs:275-293).  The metrics guard is acquired at rs:276
and is still live at rs:283, so the `record_error` call at rs:279 re-locks a
held mutex and never returns.  The second component is `none` at that stuck
point (the completed result is unreachable); the first component is the
manager state visible to other threads when the call hangs: only the two
counter increments from rs:277-278 have happened. -/
def WebSocketManager.handle_connection_failure_locked (m : WebSocketManager)
    (error : String) (ts : Nat) :
    WebSocketManager × Option (WebSocketManager × List WsEmitted) :=
  let metrics := { m.metrics with
    connection_attempts := m.metrics.connection_attempts + 1,
    failed_connections := m.metrics.failed_connections + 1 }
  let m1 := { m with metrics := metrics }
  match WebSocketManager.record_error_in m1 true error ts with
  | none => (m1, none)
  | some r =>
    let m2 := r.1
    let attempt := m2.current_reconnect_attempt + 1
    let m3 := { m2 with
      current_reconnect_attempt := attempt,
      metrics := { m2.metrics with reconnect_count := m2.metrics.reconnect_count + 1 } }
    let r2 :=
      if attempt ≥ m3.max_reconnect_attempts then m3.set_state .Failed ts
      else m3.set_state .Reconnecting ts
    (r2.1, some (r2.1, r.2 ++ r2.2))

/-- `WebSocketManager::reset_metrics` (src/websocket_manager.rs:303-322). -/
def WebSocketManager.reset_metrics (m : WebSocketManager) : WebSocketManager :=
  { m with metrics := .init }

/-- `WebSocketManager::attempt_reconnect` (src/websocket_manager.rs:324-345):
outside `Reconnecting` the guard fails and nothing happens; inside it the
state moves to `Connecting` and a delayed reconnection task is spawned (the
`Bool` component records that a task was scheduled). -/
def WebSocketManager.attempt_reconnect (m : WebSocketManager) (ts : Nat) :
    WebSocketManager × List WsEmitted × Bool :=
  if m.state = .Reconnecting then
    let r := m.set_state .Connecting ts
    (r.1, r.2, true)
  else (m, [], false)

/-- `WebSocketManager::disconnect` (src/websocket_manager.rs:347-350). -/
def WebSocketManager.disconnect (m : WebSocketManager) (ts : Nat) :
    WebSocketManager × List WsEmitted :=
  m.set_state .Disconnected ts

/-- Classifier for state-change events. -/
def WsEmitted.isStateChange : WsEmitted → Bool
  | .stateChange .. => true
  | .errorEvent .. => false

/-- Classifier for error events. -/
def WsEmitted.isErrorEvent : WsEmitted → Bool
  | .stateChange .. => false
  | .errorEvent .. => true

/-- One success/failure outcome fed to the manager. -/
inductive ConnOp
  | success (now ts : Nat)
  | failure (error : String) (ts : Nat)

/-- State reached after one connection outcome. -/
def applyConnOp (m : WebSocketManager) : ConnOp → WebSocketManager
  | .success now ts => (m.handle_connection_success now ts).1
  | .failure e ts => (m.handle_connection_failure e ts).1

/-- The manager of the terminal-failure scenario: connected, with the
reconnect attempt counter one below the maximum. -/
def failingManager : WebSocketManager :=
  { WebSocketManager.new with state := .Connected, current_reconnect_attempt := 9 }

/-! ## Lemmas: pattern matching -/

theorem splitDot_ne_nil (cs : List Char) : splitDot cs ≠ [] := by
  induction cs with
  | nil => simp [splitDot]
  | cons c rest ih =>
    simp only [splitDot]
    split
    · simp
    · match h : splitDot rest with
      | [] => exact absurd h ih
      | s :: ss => simp

theorem splitOnDot_length_pos (s : String) : 0 < (splitOnDot s).length := by
  unfold splitOnDot
  rw [List.length_map]
  exact List.length_pos.mpr (splitDot_ne_nil s.data)

theorem match_pattern_longer (p n : String)
    (h : (splitOnDot n).length < (splitOnDot p).length) :
    match_pattern p n = false := by
  have hpn : p ≠ n := by
    intro he; subst he; exact absurd h (lt_irrefl _)
  have hps : p ≠ "*" := by
    intro he; subst he
    have h1 : (splitOnDot "*").length = 1 := by decide
    rw [h1] at h
    have := splitOnDot_length_pos n
    omega
  simp only [match_pattern]
  rw [if_neg (by push_neg; exact ⟨hpn, hps⟩)]
  rw [if_pos h]

theorem walkSegments_wildcard (i : Nat) (ps ns : List String)
    (hi : i < ps.length) (hin : i < ns.length)
    (hpre : ∀ j, j < i → ps[j]? = ns[j]?)
    (hw : ps[i]? = some "*" ∨ ps[i]? = some "**") :
    walkSegments ps ns = some true := by
  induction i generalizing ps ns with
  | zero =>
    match ps, hi with
    | p :: ps', _ =>
      simp only [List.getElem?_cons_zero] at hw
      have hp : p = "*" ∨ p = "**" := by
        rcases hw with h | h
        · exact Or.inl (Option.some.inj h)
        · exact Or.inr (Option.some.inj h)
      simp [walkSegments, hp]
  | succ k ih =>
    match ps, ns, hi, hin with
    | p :: ps', n :: ns', hi, hin =>
      by_cases hp : p = "*" ∨ p = "**"
      · simp [walkSegments, hp]
      · have h0 := hpre 0 (Nat.succ_pos k)
        simp only [List.getElem?_cons_zero] at h0
        have hpn : p = n := Option.some.inj h0
        simp only [walkSegments, if_neg hp]
        rw [if_pos hpn]
        exact ih ps' ns' (by simpa using hi) (by simpa using hin)
          (fun j hj => by
            have := hpre (j + 1) (by omega)
            simpa using this)
          (by simpa using hw)

/-! ## Lemmas: bounded buffers and the emit history -/

theorem boundedPush_foldl {α : Type} (C : Nat) (hC : 0 < C) (es : List α) :
    es.foldl (boundedPush C) [] = es.drop (es.length - C) := by
  induction es using List.reverseRecOn with
  | nil => simp
  | append_singleton l a ih =>
    rw [List.foldl_append, ih]
    simp only [List.foldl_cons, List.foldl_nil]
    by_cases h : l.length < C
    · rw [Nat.sub_eq_zero_of_le (le_of_lt h), List.drop_zero]
      unfold boundedPush
      rw [if_neg (by simp; omega)]
      rw [Nat.sub_eq_zero_of_le (by simp; omega), List.drop_zero]
    · have hlen : (l.drop (l.length - C)).length = C := by
        rw [List.length_drop]; omega
      unfold boundedPush
      rw [if_pos (by simp [hlen])]
      rw [← List.drop_one, List.drop_append_of_le_length (by omega)]
      rw [List.drop_drop]
      rw [List.drop_append_of_le_length (by simp; omega)]
      congr 2
      simp
      omega

theorem boundedPush_getLast {C : Nat} {l : List (Nat × String)} {x : Nat × String}
    (hC : 0 < C) : (boundedPush C l x).getLast? = some x := by
  simp only [boundedPush]
  split
  · match l with
    | [] => simp_all
    | a :: l' => simp [List.getLast?_concat]
  · exact List.getLast?_concat l

theorem emitAll_history {L : Type} (bus : EventBus L) (events : List Event) :
    (bus.emitAll events).event_history
      = events.foldl (boundedPush bus.max_history_size) bus.event_history ∧
    (bus.emitAll events).max_history_size = bus.max_history_size := by
  induction events generalizing bus with
  | nil => exact ⟨rfl, rfl⟩
  | cons e es ih =>
    simp only [EventBus.emitAll, List.foldl_cons] at *
    exact ih _

theorem emitAll_new_history (L : Type) (events : List Event) :
    ((EventBus.new L).emitAll events).event_history
      = events.drop (events.length - 1000) := by
  rw [(emitAll_history _ _).1]
  exact boundedPush_foldl 1000 (by omega) events

/-! ## Lemmas: subscription bookkeeping -/

theorem countId_addSub {L : Type} (subs : List (String × List (String × L)))
    (pattern id : String) (listener : L) :
    countId (addSub subs pattern id listener) id = countId subs id + 1 := by
  induction subs with
  | nil => simp [addSub, countId]
  | cons pb rest ih =>
    obtain ⟨p, b⟩ := pb
    simp only [addSub]
    split
    · simp [countId, List.countP_append, List.countP_cons]
      omega
    · simp only [countId, List.map_cons, List.sum_cons] at *
      omega

theorem removeFirst_none {L : Type} (bucket : List (String × L)) (id : String)
    (h : bucket.countP (fun s => s.1 == id) = 0) :
    removeFirst bucket id = none := by
  induction bucket with
  | nil => rfl
  | cons x rest ih =>
    simp only [List.countP_cons] at h
    simp only [removeFirst]
    rw [if_neg (by by_contra hc; simp [hc] at h)]
    rw [ih (by omega)]

theorem removeFirst_pos {L : Type} (bucket : List (String × L)) (id : String)
    (h : 0 < bucket.countP (fun s => s.1 == id)) :
    ∃ b', removeFirst bucket id = some b' ∧
      b'.countP (fun s => s.1 == id) = bucket.countP (fun s => s.1 == id) - 1 := by
  induction bucket with
  | nil => simp [List.countP_nil] at h
  | cons x rest ih =>
    by_cases hx : x.1 = id
    · refine ⟨rest, ?_, ?_⟩
      · simp [removeFirst, hx]
      · simp [List.countP_cons, hx]
    · simp only [List.countP_cons] at h
      have h' : 0 < rest.countP (fun s => s.1 == id) := by
        simpa [hx] using h
      obtain ⟨b', hb', hc'⟩ := ih h'
      refine ⟨x :: b', ?_, ?_⟩
      · simp [removeFirst, hx, hb']
      · simp [List.countP_cons, hx, hc']

theorem unsubGo_zero {L : Type} (subs : List (String × List (String × L))) (id : String)
    (h : countId subs id = 0) : unsubGo subs id = (false, subs) := by
  induction subs with
  | nil => rfl
  | cons pb rest ih =>
    obtain ⟨p, b⟩ := pb
    simp only [countId, List.map_cons, List.sum_cons] at h
    simp only [unsubGo]
    rw [removeFirst_none b id (by omega)]
    rw [ih (by simp only [countId]; omega)]

theorem unsubGo_pos {L : Type} (subs : List (String × List (String × L))) (id : String)
    (h : 0 < countId subs id) :
    (unsubGo subs id).1 = true ∧
    countId (unsubGo subs id).2 id = countId subs id - 1 := by
  induction subs with
  | nil => simp [countId] at h
  | cons pb rest ih =>
    obtain ⟨p, b⟩ := pb
    by_cases hb : 0 < b.countP (fun s => s.1 == id)
    · obtain ⟨b', hsome, hcount⟩ := removeFirst_pos b id hb
      simp only [unsubGo, hsome]
      refine ⟨trivial, ?_⟩
      simp only [countId, List.map_cons, List.sum_cons] at *
      omega
    · have hb0 : b.countP (fun s => s.1 == id) = 0 := by omega
      have hrest : 0 < countId rest id := by
        simp only [countId, List.map_cons, List.sum_cons] at h
        simp only [countId]
        omega
      obtain ⟨ih1, ih2⟩ := ih hrest
      simp only [unsubGo, removeFirst_none b id hb0]
      refine ⟨ih1, ?_⟩
      simp only [countId, List.map_cons, List.sum_cons] at *
      omega

/-! ## Lemmas: the connection state machine -/

theorem set_state_events_ne (m : WebSocketManager) (s : WebSocketState) (ts : Nat)
    (h : m.state ≠ s) :
    (m.set_state s ts).2 = [WsEmitted.stateChange (stateEventName s) m.state s ts] := by
  simp [WebSocketManager.set_state, h]

theorem set_state_state (m : WebSocketManager) (s : WebSocketState) (ts : Nat) :
    (m.set_state s ts).1.state = s := by
  by_cases h : m.state = s
  · simp [WebSocketManager.set_state, h]
  · simp [WebSocketManager.set_state, h]

theorem set_state_metrics (m : WebSocketManager) (s : WebSocketState) (ts : Nat) :
    (m.set_state s ts).1.metrics = m.metrics := by
  by_cases h : m.state = s
  · simp [WebSocketManager.set_state, h]
  · simp [WebSocketManager.set_state, h]

theorem set_state_error_log (m : WebSocketManager) (s : WebSocketState) (ts : Nat) :
    (m.set_state s ts).1.error_log = m.error_log := by
  by_cases h : m.state = s
  · simp [WebSocketManager.set_state, h]
  · simp [WebSocketManager.set_state, h]

theorem handle_connection_success_metrics (m : WebSocketManager) (now ts : Nat) :
    (m.handle_connection_success now ts).1.metrics.connection_attempts
        = m.metrics.connection_attempts + 1 ∧
    (m.handle_connection_success now ts).1.metrics.successful_connections
        = m.metrics.successful_connections + 1 ∧
    (m.handle_connection_success now ts).1.metrics.failed_connections
        = m.metrics.failed_connections := by
  simp only [WebSocketManager.handle_connection_success]
  rw [set_state_metrics]
  exact ⟨rfl, rfl, rfl⟩

theorem handle_connection_failure_metrics (m : WebSocketManager) (err : String) (ts : Nat) :
    (m.handle_connection_failure err ts).1.metrics.connection_attempts
        = m.metrics.connection_attempts + 1 ∧
    (m.handle_connection_failure err ts).1.metrics.successful_connections
        = m.metrics.successful_connections ∧
    (m.handle_connection_failure err ts).1.metrics.failed_connections
        = m.metrics.failed_connections + 1 := by
  simp only [WebSocketManager.handle_connection_failure, WebSocketManager.record_error]
  split <;> (rw [set_state_metrics]; exact ⟨rfl, rfl, rfl⟩)

theorem applyConnOp_invariant (m : WebSocketManager) (op : ConnOp)
    (h : m.metrics.connection_attempts
        = m.metrics.successful_connections + m.metrics.failed_connections) :
    (applyConnOp m op).metrics.connection_attempts
      = (applyConnOp m op).metrics.successful_connections
        + (applyConnOp m op).metrics.failed_connections := by
  cases op with
  | success now ts =>
    obtain ⟨h1, h2, h3⟩ := handle_connection_success_metrics m now ts
    simp only [applyConnOp, h1, h2, h3]
    omega
  | failure e ts =>
    obtain ⟨h1, h2, h3⟩ := handle_connection_failure_metrics m e ts
    simp only [applyConnOp, h1, h2, h3]
    omega

theorem foldl_conn_invariant (m0 : WebSocketManager) (ops : List ConnOp)
    (h0 : m0.metrics.connection_attempts
        = m0.metrics.successful_connections + m0.metrics.failed_connections) :
    (ops.foldl applyConnOp m0).metrics.connection_attempts
      = (ops.foldl applyConnOp m0).metrics.successful_connections
        + (ops.foldl applyConnOp m0).metrics.failed_connections := by
  induction ops generalizing m0 with
  | nil => exact h0
  | cons op rest ih =>
    exact ih (applyConnOp m0 op) (applyConnOp_invariant m0 op h0)

/-! ## Claim theorems -/

/-- Claim C1: the pattern matcher satisfies the spec's test vectors, and a
pattern with more dot segments than the event name never matches. -/
theorem C1_pattern_test_vectors :
    match_pattern "database.*" "database.users_fetched" = true ∧
    match_pattern "database.*" "counter.increment" = false ∧
    match_pattern "**" "anything.at.all" = true ∧
    match_pattern "a.b.c" "a.b" = false ∧
    ∀ p n : String, (splitOnDot n).length < (splitOnDot p).length →
      match_pattern p n = false :=
  ⟨by decide, by decide, by decide, by decide, match_pattern_longer⟩

theorem C1_pattern_test_vectors_witness :
    (splitOnDot "a.b").length < (splitOnDot "a.b.c").length ∧
    match_pattern "a.b.c" "a.b" = false :=
  ⟨by decide, C1_pattern_test_vectors.2.2.2.2 "a.b.c" "a.b" (by decide)⟩

/-- Claim C2: a `*` or `**` segment at position `i` of the pattern matches
the rest unconditionally: whenever the pattern has no more segments than the
name and the segments before `i` agree, the match succeeds regardless of all
later segments of either side. -/
theorem C2_wildcard_match_rest (p n : String) (i : Nat)
    (hlen : (splitOnDot p).length ≤ (splitOnDot n).length)
    (hi : i < (splitOnDot p).length)
    (hpre : ∀ j, j < i → (splitOnDot p)[j]? = (splitOnDot n)[j]?)
    (hw : (splitOnDot p)[i]? = some "*" ∨ (splitOnDot p)[i]? = some "**") :
    match_pattern p n = true := by
  by_cases h0 : p = n ∨ p = "*"
  · simp [match_pattern, h0]
  · simp only [match_pattern, if_neg h0]
    rw [if_neg (by omega)]
    rw [walkSegments_wildcard i _ _ hi (by omega) hpre hw]

theorem C2_wildcard_match_rest_witness :
    (splitOnDot "a.*.zzz").length ≤ (splitOnDot "a.b.c.d").length ∧
    1 < (splitOnDot "a.*.zzz").length ∧
    match_pattern "a.*.zzz" "a.b.c.d" = true :=
  ⟨by decide, by decide,
   C2_wildcard_match_rest "a.*.zzz" "a.b.c.d" 1 (by decide) (by decide)
     (fun j hj => by
       have hj0 : j = 0 := by omega
       subst hj0
       decide)
     (Or.inl (by decide))⟩

/-- Claim C3 (counterexample): after 1050 emits on a fresh bus the full
history returned by `get_event_history none` is NOT ordered newest first: it
is the last 1000 events in emission order, so it differs from the reversal
of the last 1000 emitted events. -/
theorem C3_history_newest_first_counterexample :
    ¬ (((EventBus.new Unit).emitAll ((List.range 1050).map natEvent)).get_event_history none
        = (((List.range 1050).map natEvent).drop 50).reverse) := by
  intro hcl
  have h1 : ((EventBus.new Unit).emitAll ((List.range 1050).map natEvent)).get_event_history
      none = ((List.range 1050).map natEvent).drop 50 := by
    show ((EventBus.new Unit).emitAll _).event_history = _
    rw [emitAll_new_history]
    simp
  rw [h1] at hcl
  have h2 : (((List.range 1050).map natEvent).drop 50).head? = some (natEvent 50) := by
    rw [List.head?_eq_getElem?, List.getElem?_drop, Nat.add_zero, List.getElem?_map,
      List.getElem?_range (by omega)]
    rfl
  have h3 : (((List.range 1050).map natEvent).drop 50).getLast? = some (natEvent 1049) := by
    rw [List.getLast?_eq_getElem?, List.length_drop, List.length_map, List.length_range]
    rw [List.getElem?_drop, List.getElem?_map, List.getElem?_range (by omega)]
    rfl
  have h4 : (((List.range 1050).map natEvent).drop 50).head?
      = ((((List.range 1050).map natEvent).drop 50).reverse).head? := by rw [← hcl]
  rw [h2, List.head?_reverse, h3] at h4
  exact absurd (congrArg Event.id (Option.some.inj h4)) (by decide)

/-- Claim C3 (amended): for every sequence of more than 1000 emits on a fresh
bus, `get_event_history none` returns exactly 1000 records, equal to the last
1000 emitted events in emission order (oldest of the retained events first);
in particular its first record is emit number N-999 of N. -/
theorem C3_history_bound_amended (L : Type) (events : List Event)
    (h : 1000 < events.length) :
    (((EventBus.new L).emitAll events).get_event_history none
        = events.drop (events.length - 1000)) ∧
    ((((EventBus.new L).emitAll events).get_event_history none).length = 1000) ∧
    ((((EventBus.new L).emitAll events).get_event_history none).head?
        = events[events.length - 1000]?) := by
  have h1 : ((EventBus.new L).emitAll events).get_event_history none
      = events.drop (events.length - 1000) := emitAll_new_history L events
  refine ⟨h1, ?_, ?_⟩
  · rw [h1, List.length_drop]; omega
  · rw [h1, List.head?_eq_getElem?, List.getElem?_drop, Nat.add_zero]

theorem C3_history_bound_amended_witness :
    1000 < ((List.range 1050).map natEvent).length ∧
    ((((EventBus.new Unit).emitAll ((List.range 1050).map natEvent)).get_event_history none
        = ((List.range 1050).map natEvent).drop
            (((List.range 1050).map natEvent).length - 1000)) ∧
     ((((EventBus.new Unit).emitAll ((List.range 1050).map natEvent)).get_event_history
          none).length = 1000) ∧
     ((((EventBus.new Unit).emitAll ((List.range 1050).map natEvent)).get_event_history
          none).head?
        = ((List.range 1050).map natEvent)[((List.range 1050).map natEvent).length
            - 1000]?)) :=
  ⟨by simp,
   C3_history_bound_amended Unit ((List.range 1050).map natEvent) (by simp)⟩

/-- Claim C4 (code bug): the behaviour the claim describes is unreachable in
the source.  In the lock-aware embedding every call of
`handle_connection_failure` stops inside `record_error`, whose acquisition of
the metrics mutex (rs:214) — held by the caller since rs:276 — never
returns.  The completed result is `none`, and at the stuck point the state,
error log, attempt counter and `reconnect_count` are all unchanged: no
error-log append, no transition to `Reconnecting`/`Failed`, no state-change
or error event; only `connection_attempts` and `failed_connections` were
incremented.  Also evaluated at the claim's own scenario (`failingManager`:
`Connected`, attempt counter at `max - 1`), where the claim expects `Failed`
plus two events. -/
theorem C4_connection_failure_deadlock :
    (∀ (m : WebSocketManager) (err : String) (ts : Nat),
      (m.handle_connection_failure_locked err ts).2 = none ∧
      (m.handle_connection_failure_locked err ts).1.state = m.state ∧
      (m.handle_connection_failure_locked err ts).1.error_log = m.error_log ∧
      (m.handle_connection_failure_locked err ts).1.current_reconnect_attempt
        = m.current_reconnect_attempt ∧
      (m.handle_connection_failure_locked err ts).1.metrics.reconnect_count
        = m.metrics.reconnect_count ∧
      (m.handle_connection_failure_locked err ts).1.metrics.connection_attempts
        = m.metrics.connection_attempts + 1 ∧
      (m.handle_connection_failure_locked err ts).1.metrics.failed_connections
        = m.metrics.failed_connections + 1) ∧
    (failingManager.handle_connection_failure_locked "boom" 123).2 = none ∧
    (failingManager.handle_connection_failure_locked "boom" 123).1.state
      = WebSocketState.Connected :=
  ⟨fun _ _ _ => ⟨rfl, rfl, rfl, rfl, rfl, rfl, rfl⟩, rfl, by decide⟩

/-- Claim C5: `set_state` emits exactly one state-change event — carrying the
previous state, the new state and the timestamp — when the new state differs
from the current one, and emits nothing at all (leaving the manager
untouched) when the new state equals the current one. -/
theorem C5_set_state_emission (m : WebSocketManager) (s : WebSocketState) (ts : Nat) :
    (s ≠ m.state →
      (m.set_state s ts).1.state = s ∧
      (m.set_state s ts).2 = [WsEmitted.stateChange (stateEventName s) m.state s ts]) ∧
    (s = m.state → m.set_state s ts = (m, [])) := by
  constructor
  · intro h
    simp [WebSocketManager.set_state, Ne.symm h]
  · intro h
    simp [WebSocketManager.set_state, h]

theorem C5_set_state_emission_witness :
    (WebSocketState.Connecting ≠ WebSocketManager.new.state ∧
      (WebSocketManager.new.set_state .Connecting 7).1.state = WebSocketState.Connecting ∧
      (WebSocketManager.new.set_state .Connecting 7).2
        = [WsEmitted.stateChange (stateEventName .Connecting)
            WebSocketManager.new.state .Connecting 7]) ∧
    (WebSocketState.Disconnected = WebSocketManager.new.state ∧
      WebSocketManager.new.set_state .Disconnected 9 = (WebSocketManager.new, [])) :=
  ⟨⟨by decide, (C5_set_state_emission WebSocketManager.new .Connecting 7).1 (by decide)⟩,
   ⟨by decide, (C5_set_state_emission WebSocketManager.new .Disconnected 9).2 (by decide)⟩⟩

/-- Claim C6: `emit` succeeds independently of any listener outcome, and with
two subscriptions on one matching pattern a listener that errors does not
affect the other listener, which is dispatched the event exactly once. -/
theorem C6_listener_isolation (pat idA idB : String)
    (lA lB : Event → Except String Unit) (e : Event) (hist : List Event) (cap : Nat)
    (res : Except String Nat) (msg : String)
    (hmatch : match_pattern pat e.name = true)
    (hA : lA e = Except.error msg)
    (hne : idA ≠ idB) :
    ((twoListenerBus pat idA idB lA lB hist cap).emit e res).1 = Except.ok () ∧
    ((twoListenerBus pat idA idB lA lB hist cap).emit e res).2.2
        = [(idA, lA), (idB, lB)] ∧
    (((twoListenerBus pat idA idB lA lB hist cap).emit e res).2.2.countP
        (fun d => d.1 == idB)) = 1 := by
  refine ⟨rfl, ?_, ?_⟩
  · simp [twoListenerBus, EventBus.emit, EventBus.get_matching_subscriptions, hmatch]
  · simp [twoListenerBus, EventBus.emit, EventBus.get_matching_subscriptions, hmatch,
      List.countP_cons, hne]

theorem C6_listener_isolation_witness :
    match_pattern "test.*" (natEvent 0).name = false ∧
    match_pattern "history.*" (natEvent 0).name = true ∧
    ((twoListenerBus "history.*" "subA" "subB" (fun _ => Except.error "boom")
        (fun _ => Except.ok ()) [] 1000).emit (natEvent 0) (Except.ok 0)).1
      = Except.ok () ∧
    ((twoListenerBus "history.*" "subA" "subB" (fun _ => Except.error "boom")
        (fun _ => Except.ok ()) [] 1000).emit (natEvent 0) (Except.ok 0)).2.2
      = [("subA", fun _ => Except.error "boom"), ("subB", fun _ => Except.ok ())] ∧
    (((twoListenerBus "history.*" "subA" "subB" (fun _ => Except.error "boom")
        (fun _ => Except.ok ()) [] 1000).emit (natEvent 0) (Except.ok 0)).2.2.countP
        (fun d => d.1 == "subB")) = 1 := by
  have h := C6_listener_isolation "history.*" "subA" "subB"
    (fun _ => Except.error "boom") (fun _ => Except.ok ()) (natEvent 0) [] 1000
    (Except.ok 0) "boom" (by decide) rfl (by decide)
  exact ⟨by decide, by decide, h.1, h.2.1, h.2.2⟩

/-- Claim C7: starting from any metrics satisfying
`connection_attempts = successful_connections + failed_connections` (the
fresh and the reset state both do), the invariant is preserved by every
sequence of success/failure outcomes, and `reset_metrics` returns all
counters to the all-zero record. -/
theorem C7_metrics_invariant (m0 : WebSocketManager) (ops : List ConnOp)
    (h0 : m0.metrics.connection_attempts
        = m0.metrics.successful_connections + m0.metrics.failed_connections) :
    ((ops.foldl applyConnOp m0).metrics.connection_attempts
      = (ops.foldl applyConnOp m0).metrics.successful_connections
        + (ops.foldl applyConnOp m0).metrics.failed_connections) ∧
    ((ops.foldl applyConnOp m0).reset_metrics).metrics = WebSocketMetrics.init :=
  ⟨foldl_conn_invariant m0 ops h0, rfl⟩

theorem C7_metrics_invariant_witness :
    (WebSocketManager.new.metrics.connection_attempts
      = WebSocketManager.new.metrics.successful_connections
        + WebSocketManager.new.metrics.failed_connections) ∧
    (([ConnOp.success 1 2, ConnOp.failure "x" 3,
        ConnOp.failure "y" 4].foldl applyConnOp WebSocketManager.new).metrics.connection_attempts
      = ([ConnOp.success 1 2, ConnOp.failure "x" 3,
          ConnOp.failure "y" 4].foldl applyConnOp
            WebSocketManager.new).metrics.successful_connections
        + ([ConnOp.success 1 2, ConnOp.failure "x" 3,
            ConnOp.failure "y" 4].foldl applyConnOp
              WebSocketManager.new).metrics.failed_connections) ∧
    (([ConnOp.success 1 2, ConnOp.failure "x" 3,
        ConnOp.failure "y" 4].foldl applyConnOp
          WebSocketManager.new).reset_metrics).metrics = WebSocketMetrics.init :=
  ⟨by decide,
   (C7_metrics_invariant WebSocketManager.new
      [ConnOp.success 1 2, ConnOp.failure "x" 3, ConnOp.failure "y" 4] (by decide)).1,
   (C7_metrics_invariant WebSocketManager.new
      [ConnOp.success 1 2, ConnOp.failure "x" 3, ConnOp.failure "y" 4] (by decide)).2⟩

/-- Claim C8: for a freshly subscribed id, the first `unsubscribe` returns
`true` and removes the subscription, the second returns `false` and changes
nothing; and any `unsubscribe` with an unregistered id returns `false` with
the bus unchanged. -/
theorem C8_unsubscribe_idempotent (L : Type) (bus : EventBus L) (pattern : String)
    (listener : L) (id : String)
    (hfresh : countId bus.subscriptions id = 0) :
    ((bus.subscribe pattern listener id).unsubscribe id).1 = true ∧
    countId ((bus.subscribe pattern listener id).unsubscribe id).2.subscriptions id = 0 ∧
    (((bus.subscribe pattern listener id).unsubscribe id).2.unsubscribe id).1 = false ∧
    (((bus.subscribe pattern listener id).unsubscribe id).2.unsubscribe id).2
      = ((bus.subscribe pattern listener id).unsubscribe id).2 ∧
    bus.unsubscribe id = (false, bus) := by
  have hone : countId (bus.subscribe pattern listener id).subscriptions id = 1 := by
    show countId (addSub bus.subscriptions pattern id listener) id = 1
    rw [countId_addSub, hfresh]
  have hpos := unsubGo_pos (bus.subscribe pattern listener id).subscriptions id (by omega)
  have hzero :
      countId ((bus.subscribe pattern listener id).unsubscribe id).2.subscriptions id
        = 0 := by
    show countId (unsubGo (bus.subscribe pattern listener id).subscriptions id).2 id = 0
    omega
  refine ⟨hpos.1, hzero, ?_, ?_, ?_⟩
  · show (unsubGo ((bus.subscribe pattern listener id).unsubscribe id).2.subscriptions
        id).1 = false
    rw [unsubGo_zero _ _ hzero]
  · show (((bus.subscribe pattern listener id).unsubscribe id).2.unsubscribe id).2
      = ((bus.subscribe pattern listener id).unsubscribe id).2
    have hzero' :
        countId (unsubGo (bus.subscribe pattern listener id).subscriptions id).2 id
          = 0 := hzero
    simp only [EventBus.unsubscribe, unsubGo_zero _ _ hzero']
  · simp only [EventBus.unsubscribe, unsubGo_zero _ _ hfresh]

theorem C8_unsubscribe_idempotent_witness :
    countId (EventBus.new Unit).subscriptions "sub-1" = 0 ∧
    (((EventBus.new Unit).subscribe "a.b" () "sub-1").unsubscribe "sub-1").1 = true ∧
    countId ((((EventBus.new Unit).subscribe "a.b" ()
        "sub-1").unsubscribe "sub-1").2).subscriptions "sub-1" = 0 ∧
    (((((EventBus.new Unit).subscribe "a.b" () "sub-1").unsubscribe
        "sub-1").2).unsubscribe "sub-1").1 = false := by
  have h := C8_unsubscribe_idempotent Unit (EventBus.new Unit) "a.b" () "sub-1" (by decide)
  exact ⟨by decide, h.1, h.2.1, h.2.2.1⟩

/-- Claim C9: `emit` never returns an error: the broadcast send outcome is
discarded, and every execution path returns success. -/
theorem C9_emit_never_fails (L : Type) (bus : EventBus L) (e : Event)
    (broadcast_send_result : Except String Nat) :
    (bus.emit e broadcast_send_result).1 = Except.ok () := rfl

/-- Claim C10: outside `Reconnecting`, `attempt_reconnect` changes nothing —
same state, metrics, attempt counter and error log — emits no event and
schedules no reconnection task. -/
theorem C10_attempt_reconnect_noop (m : WebSocketManager) (ts : Nat)
    (h : m.state ≠ .Reconnecting) :
    m.attempt_reconnect ts = (m, [], false) := by
  simp [WebSocketManager.attempt_reconnect, h]

theorem C10_attempt_reconnect_noop_witness :
    WebSocketManager.new.state ≠ WebSocketState.Reconnecting ∧
    WebSocketManager.new.attempt_reconnect 5 = (WebSocketManager.new, [], false) :=
  ⟨by decide, C10_attempt_reconnect_noop WebSocketManager.new 5 (by decide)⟩
